import Mathlib

/-!
Shallow embedding of `src/app2.py` (SmartResumeGenAI): a Streamlit form that
collects profile fields, calls a generative-text service to enrich free text,
assembles a word-processor document, and emits a base64 download link.

The external generative model (`model.generate_content` in the source) is
injected as a function `llm : String → Except String String`: `Except.ok t`
models a response with text `t`, `Except.error e` models a raised exception
whose rendered message is `e`.  Python dictionaries used for experience
entries may lack the `description` key, so that field is an `Option String`;
a `KeyError` raised by a missing-key access is modelled as `Except.error`.
-/

namespace SmartResume

/-- A docx block as produced by `document.add_heading` (text, level) or
`document.add_paragraph` (text, optional style such as `List Bullet` or
`Heading 3`).  A `Document` is the ordered list of its blocks. -/
inductive Block where
  | heading (text : String) (level : Nat)
  | paragraph (text : String) (style : Option String)
  deriving DecidableEq, Repr

/-- Experience dict from `main` (src/app2.py line 240): keys `title`,
`company`, `dates`, `description`.  The code at line 191 guards on
`'description' in exp`, so that key is modelled as possibly absent. -/
structure ExperienceEntry where
  title : String
  company : String
  dates : String
  description : Option String
  deriving DecidableEq, Repr

/-- Education dict from `main` (line 253): keys `degree`, `school`,
`dates`, `description`, all accessed unconditionally. -/
structure EducationEntry where
  degree : String
  school : String
  dates : String
  description : String
  deriving DecidableEq, Repr

/-- Project dict from `main` (line 262): keys `title`, `description`. -/
structure ProjectEntry where
  title : String
  description : String
  deriving DecidableEq, Repr

/-- Whitespace stripped by Python `str.strip()` (ASCII subset). -/
def isPySpace (c : Char) : Bool :=
  c = ' ' || c = '\t' || c = '\n' || c = '\r' || c = Char.ofNat 11 || c = Char.ofNat 12

/-- Model of Python `str.strip()`: drop leading and trailing whitespace. -/
def pyStrip (s : String) : String :=
  String.mk (((s.data.dropWhile isPySpace).reverse.dropWhile isPySpace).reverse)

/-- Accumulator-passing worker for `pySplitComma`. -/
def splitCommaAux : List Char → List Char → List String
  | [], acc => [String.mk acc.reverse]
  | c :: cs, acc =>
      if c = ',' then String.mk acc.reverse :: splitCommaAux cs []
      else splitCommaAux cs (c :: acc)

/-- Model of Python `skills.split(",")` (line 181): split at every comma,
keeping empty tokens, so `n` commas always give `n + 1` tokens. -/
def pySplitComma (s : String) : List String :=
  splitCommaAux s.data []

/-- The prompt built by `summarize_experience` (line 30). -/
def summarizePrompt (description : String) : String :=
  "Summarize the following job description in 3 concise bullet points, highlighting accomplishments and quantifiable results.  Focus on keywords that would be relevant to recruiters:\n\n" ++ description

/-- `summarize_experience` (lines 28-35): ask the model to summarize; on any
exception return the error string instead of propagating. -/
def summarize_experience (llm : String → Except String String) (description : String) : String :=
  match llm (summarizePrompt description) with
  | Except.ok response => response
  | Except.error e => "Error summarizing experience: " ++ e

/-- `generate_skills_suggestions` (lines 38-45). -/
def generate_skills_suggestions (llm : String → Except String String) (description : String) : String :=
  match llm ("Extract a list of relevant skills from the following job description:\n\n" ++ description) with
  | Except.ok response => response
  | Except.error e => "Error generating skills: " ++ e

/-- `generate_cover_letter` (lines 48-55). -/
def generate_cover_letter (llm : String → Except String String) (name job_description : String) : String :=
  match llm ("Write a cover letter for " ++ name ++ " based on the following job description.  The cover letter should be concise and highlight relevant skills and experience.  Make it professional and engaging:\n\n" ++ job_description) with
  | Except.ok response => response
  | Except.error e => "Error generating cover letter: " ++ e

/-- `suggest_improvements` (lines 57-64). -/
def suggest_improvements (llm : String → Except String String) (job_description skills : String) : String :=
  match llm ("Based on the following job description and provided skills, suggest improvements to strengthen the profile, including relevant certifications, projects, or portfolios to add: \n\nJob Description: " ++ job_description ++ "\nSkills: " ++ skills) with
  | Except.ok response => response
  | Except.error e => "Error generating suggestions: " ++ e

/-- `extract_skills_qualifications` (lines 67-74). -/
def extract_skills_qualifications (llm : String → Except String String) (job_description : String) : String :=
  match llm ("Extract key skills, qualifications, and responsibilities from the following job description:\n\n" ++ job_description) with
  | Except.ok response => response
  | Except.error e => "Error extracting skills and qualifications: " ++ e

/-- `highlight_missing_skills` (lines 77-85); the source's triple-quoted
prompt keeps the line break and four-space indent before `Make`. -/
def highlight_missing_skills (llm : String → Except String String) (user_skills extracted_skills : String) : String :=
  match llm ("You are a career expert comparing two lists of skills. Given the following list of skills the candidate posesses: " ++ user_skills ++ ", and the following list of skills required by a job description: " ++ extracted_skills ++ ", what skills are the candidate missing?\n    Make your response a comma separated list of skills") with
  | Except.ok response => response
  | Except.error e => "Error highlighting missing skills: " ++ e

/-- `suggest_profile_improvements` (lines 139-146); the LinkedIn data dict is
rendered into the prompt, so the payload is taken as its string form. -/
def suggest_profile_improvements (llm : String → Except String String) (linkedin_data : String) : String :=
  match llm ("Based on the following LinkedIn profile data, suggest improvements to the profile to make it stronger based on industry best practices. Consider profile completeness, keyword usage, and showcasing accomplishments:\n\n" ++ linkedin_data) with
  | Except.ok response => response
  | Except.error e => "Error suggesting profile improvements: " ++ e

/-- `generate_interview_questions` (lines 149-156). -/
def generate_interview_questions (llm : String → Except String String) (resume_content : String) : String :=
  match llm ("Generate potential interview questions based on the following resume content. Cover a range of topics, including experience, skills, and projects:\n\n" ++ resume_content) with
  | Except.ok response => response
  | Except.error e => "Error generating interview questions: " ++ e

/-- `analyze_strengths_weaknesses` (lines 159-166). -/
def analyze_strengths_weaknesses (llm : String → Except String String) (resume_content : String) : String :=
  match llm ("Analyze the strengths and weaknesses of a candidate based on the following resume content. Provide constructive feedback:\n\n" ++ resume_content) with
  | Except.ok response => response
  | Except.error e => "Error analyzing strengths and weaknesses: " ++ e

/-- `header_info` (line 176): contact line of the Header section. -/
def header_info (email phone linkedin github : String) : String :=
  email ++ " | " ++ phone ++ " | [LinkedIn](" ++ linkedin ++ ") | [GitHub](" ++ github ++ ")"

/-- One experience entry's blocks (lines 187-195): title as a `Heading 3`
paragraph, a `company | dates` paragraph, then the description paragraph,
enriched by `summarize_experience` exactly when the description key is
present and truthy (non-empty).  When the key is absent the `else` branch
evaluates `exp['description']`, which raises `KeyError`. -/
def experienceEntryBlocks (llm : String → Except String String) (exp : ExperienceEntry) :
    Except String (List Block) :=
  match exp.description with
  | some d =>
      Except.ok [Block.paragraph exp.title (some "Heading 3"),
        Block.paragraph (exp.company ++ " | " ++ exp.dates) none,
        Block.paragraph (if d = "" then d else summarize_experience llm d) none]
  | none => Except.error "KeyError: description"

/-- One education entry's blocks (lines 200-203). -/
def educationEntryBlocks (edu : EducationEntry) : List Block :=
  [Block.paragraph edu.degree (some "Heading 3"),
   Block.paragraph (edu.school ++ " | " ++ edu.dates) none,
   Block.paragraph edu.description none]

/-- One project entry's blocks (lines 207-209). -/
def projectEntryBlocks (proj : ProjectEntry) : List Block :=
  [Block.paragraph proj.title (some "Heading 3"),
   Block.paragraph proj.description none]

/-- Effectful map over `Except`: apply `f` left to right, stopping at the
first error, as the Python `for` loop at lines 187-195 does when an entry
raises. -/
def mapMExcept (f : ExperienceEntry → Except String (List Block)) :
    List ExperienceEntry → Except String (List (List Block))
  | [] => Except.ok []
  | x :: xs => do
      let y ← f x
      let ys ← mapMExcept f xs
      Except.ok (y :: ys)

/-- `generate_resume` (lines 169-211): header heading and contact paragraph,
then Skills (one `List Bullet` paragraph per comma-split, stripped token),
then Experience, Education and Projects sections in that order.  The result
is the ordered block list of the docx `Document`; a `KeyError` from a
missing description key aborts the whole build. -/
def generate_resume (llm : String → Except String String)
    (name email phone linkedin github skills : String)
    (experience : List ExperienceEntry) (education : List EducationEntry)
    (projects : List ProjectEntry) : Except String (List Block) := do
  let expSegs ← mapMExcept (experienceEntryBlocks llm) experience
  Except.ok
    ([Block.heading name 1,
      Block.paragraph (header_info email phone linkedin github) none,
      Block.heading "Skills" 2] ++
     (pySplitComma skills).map (fun skill => Block.paragraph (pyStrip skill) (some "List Bullet")) ++
     [Block.heading "Experience" 2] ++ expSegs.flatten ++
     [Block.heading "Education" 2] ++ (education.map educationEntryBlocks).flatten ++
     [Block.heading "Projects" 2] ++ (projects.map projectEntryBlocks).flatten)

/-- The base64 alphabet, index 0 to 63. -/
def b64Chars : List Char :=
  ['A', 'B', 'C', 'D', 'E', 'F', 'G', 'H', 'I', 'J', 'K', 'L', 'M',
   'N', 'O', 'P', 'Q', 'R', 'S', 'T', 'U', 'V', 'W', 'X', 'Y', 'Z',
   'a', 'b', 'c', 'd', 'e', 'f', 'g', 'h', 'i', 'j', 'k', 'l', 'm',
   'n', 'o', 'p', 'q', 'r', 's', 't', 'u', 'v', 'w', 'x', 'y', 'z',
   '0', '1', '2', '3', '4', '5', '6', '7', '8', '9', '+', '/']

/-- Character for a 6-bit group. -/
def b64Char (i : Nat) : Char := b64Chars.getD i 'A'

/-- Index of a base64 character, `none` for characters outside the alphabet. -/
def b64Index (c : Char) : Option Nat := b64Chars.findIdx? (fun x => x = c)

/-- Worker for `b64encode`: three bytes become four characters; a final
group of one or two bytes is padded with `=`. -/
def b64encodeAux : List Nat → List Char
  | [] => []
  | [a] => [b64Char (a / 4), b64Char (a % 4 * 16), '=', '=']
  | [a, b] => [b64Char (a / 4), b64Char (a % 4 * 16 + b / 16), b64Char (b % 16 * 4), '=']
  | a :: b :: c :: rest =>
      b64Char (a / 4) :: b64Char (a % 4 * 16 + b / 16) :: b64Char (b % 16 * 4 + c / 64) ::
        b64Char (c % 64) :: b64encodeAux rest

/-- Model of `base64.b64encode(buffer.read()).decode()` at line 302: standard
(RFC 4648) base64 text of a byte buffer (bytes as naturals below 256). -/
def b64encode (buffer : List Nat) : String := String.mk (b64encodeAux buffer)

/-- Modelled from the spec: the standard base64 decoder applied by the
consumer of the data URI (`serialize → encode → decode → byte-equal`); the
repository itself only encodes.  Four characters become three bytes; `=`
padding closes the final group; `none` on malformed input. -/
def b64decodeAux : List Char → Option (List Nat)
  | [] => some []
  | c1 :: c2 :: c3 :: c4 :: rest =>
      match b64Index c1, b64Index c2 with
      | some n1, some n2 =>
          if c3 = '=' then
            if c4 = '=' ∧ rest = [] then some [n1 * 4 + n2 / 16] else none
          else
            match b64Index c3 with
            | some n3 =>
                if c4 = '=' then
                  if rest = [] then some [n1 * 4 + n2 / 16, n2 % 16 * 16 + n3 / 4] else none
                else
                  match b64Index c4, b64decodeAux rest with
                  | some n4, some tail =>
                      some ((n1 * 4 + n2 / 16) :: (n2 % 16 * 16 + n3 / 4) ::
                        (n3 % 4 * 64 + n4) :: tail)
                  | _, _ => none
            | none => none
      | _, _ => none
  | _ => none

/-- Modelled from the spec: base64 decoding of the download link's text. -/
def b64decode (s : String) : Option (List Nat) := b64decodeAux s.data

/-- The download filename from line 303: `{name}_resume.docx`, no
sanitization. -/
def downloadFilename (name : String) : String := name ++ "_resume.docx"

/-- The download anchor built at line 303: the base64 payload and the raw
user name are interpolated into the HTML attribute text unescaped. -/
def downloadLink (name b64 : String) : String :=
  "<a href=\"data:application/vnd.openxmlformats-officedocument.wordprocessingml.document;base64," ++
    b64 ++ "\" download=\"" ++ downloadFilename name ++ "\">Download Resume (docx)</a>"

/-- Outcome of one form submission in `main` (lines 269-304): either the
blocking validation error, or a processed submission carrying the generated
document and its download anchor.  Display-only outputs (LinkedIn
suggestions, cover letter, analyses) do not feed the document or the link
and are not part of the outcome. -/
inductive SubmissionOutcome where
  | blocked (msg : String)
  | processed (doc : List Block) (href : String)
  deriving DecidableEq, Repr

/-- The submission handler (lines 269-304): empty name, email or skills is
falsy in Python, so the guard at line 271 blocks the submission with
`st.error`; otherwise the resume is generated, serialized (the docx
serializer `document.save` is injected as `save`), base64-encoded and
wrapped in the download anchor.  An uncaught `KeyError` from
`generate_resume` propagates. -/
def handleSubmission (llm : String → Except String String) (save : List Block → List Nat)
    (name email phone linkedin github skills : String)
    (experience : List ExperienceEntry) (education : List EducationEntry)
    (projects : List ProjectEntry) : Except String SubmissionOutcome :=
  if name = "" || email = "" || skills = "" then
    Except.ok (SubmissionOutcome.blocked "Please fill in all required fields (Name, Email, Skills).")
  else
    match generate_resume llm name email phone linkedin github skills experience education projects with
    | Except.ok document =>
        Except.ok (SubmissionOutcome.processed document (downloadLink name (b64encode (save document))))
    | Except.error e => Except.error e

/-- Result of module start-up (lines 16-25). -/
inductive StartupResult where
  | halted (msg : String)
  | started (apiKey : String)
  deriving DecidableEq, Repr

/-- Start-up (lines 16-25): `os.getenv("GOOGLE_API_KEY")` is `None` when the
variable is unset; `if not GOOGLE_API_KEY` is true for `None` and for the
empty string, in which case `st.error` then `st.stop()` halt before any
submission is served. -/
def startup (env : String → Option String) : StartupResult :=
  match env "GOOGLE_API_KEY" with
  | none => StartupResult.halted "Please set the GOOGLE_API_KEY environment variable."
  | some key =>
      if key = "" then StartupResult.halted "Please set the GOOGLE_API_KEY environment variable."
      else StartupResult.started key

/-- `true` exactly on heading blocks; used to state section-order facts. -/
def Block.isHeading : Block → Bool
  | Block.heading _ _ => true
  | Block.paragraph _ _ => false

/-- The description text rendered for an entry whose description key is
present: the raw text when empty (falsy), the enrichment output otherwise.
Proof-support form of the branch at lines 191-195. -/
def descriptionText (llm : String → Except String String) (e : ExperienceEntry) : String :=
  match e.description with
  | some d => if d = "" then d else summarize_experience llm d
  | none => ""

/-- The three blocks an experience entry contributes when its description
key is present; `experienceEntryBlocks` returns exactly these (proved in
`experienceEntryBlocks_eq_ok`). -/
def renderedExperienceEntry (llm : String → Except String String) (e : ExperienceEntry) :
    List Block :=
  [Block.paragraph e.title (some "Heading 3"),
   Block.paragraph (e.company ++ " | " ++ e.dates) none,
   Block.paragraph (descriptionText llm e) none]

/-- The block list `generate_resume` produces when every experience entry
carries its description key (proved in `generate_resume_eq`). -/
def resumeBlocks (llm : String → Except String String)
    (name email phone linkedin github skills : String)
    (experience : List ExperienceEntry) (education : List EducationEntry)
    (projects : List ProjectEntry) : List Block :=
  [Block.heading name 1,
   Block.paragraph (header_info email phone linkedin github) none,
   Block.heading "Skills" 2] ++
  (pySplitComma skills).map (fun skill => Block.paragraph (pyStrip skill) (some "List Bullet")) ++
  [Block.heading "Experience" 2] ++ (experience.map (renderedExperienceEntry llm)).flatten ++
  [Block.heading "Education" 2] ++ (education.map educationEntryBlocks).flatten ++
  [Block.heading "Projects" 2] ++ (projects.map projectEntryBlocks).flatten

end SmartResume

/-! ## Supporting lemmas -/

namespace SmartResume

theorem b64Index_b64Char (i : Nat) (h : i < 64) : b64Index (b64Char i) = some i := by
  have key : ∀ j : Fin 64, b64Index (b64Char j.val) = some j.val := by decide
  exact key ⟨i, h⟩

theorem b64Char_ne_pad (i : Nat) (h : i < 64) : b64Char i ≠ '=' := by
  have key : ∀ j : Fin 64, b64Char j.val ≠ '=' := by decide
  exact key ⟨i, h⟩

theorem b64_roundtrip_aux : ∀ bs : List Nat, (∀ x ∈ bs, x < 256) →
    b64decodeAux (b64encodeAux bs) = some bs
  | [], _ => rfl
  | [a], h => by
      have ha : a < 256 := h a (by simp)
      have h1 := b64Index_b64Char (a / 4) (by omega)
      have h2 := b64Index_b64Char (a % 4 * 16) (by omega)
      simp [b64encodeAux, b64decodeAux, h1, h2]
      omega
  | [a, b], h => by
      have ha : a < 256 := h a (by simp)
      have hb : b < 256 := h b (by simp)
      have h1 := b64Index_b64Char (a / 4) (by omega)
      have h2 := b64Index_b64Char (a % 4 * 16 + b / 16) (by omega)
      have h3 := b64Index_b64Char (b % 16 * 4) (by omega)
      have hne := b64Char_ne_pad (b % 16 * 4) (by omega)
      simp [b64encodeAux, b64decodeAux, h1, h2, h3, hne]
      constructor
      · omega
      · omega
  | a :: b :: c :: rest, h => by
      have ha : a < 256 := h a (by simp)
      have hb : b < 256 := h b (by simp)
      have hc : c < 256 := h c (by simp)
      have ih := b64_roundtrip_aux rest (fun x hx => h x (by simp [hx]))
      have h1 := b64Index_b64Char (a / 4) (by omega)
      have h2 := b64Index_b64Char (a % 4 * 16 + b / 16) (by omega)
      have h3 := b64Index_b64Char (b % 16 * 4 + c / 64) (by omega)
      have h4 := b64Index_b64Char (c % 64) (by omega)
      have hne3 := b64Char_ne_pad (b % 16 * 4 + c / 64) (by omega)
      have hne4 := b64Char_ne_pad (c % 64) (by omega)
      simp [b64encodeAux, b64decodeAux, h1, h2, h3, h4, hne3, hne4, ih]
      refine ⟨by omega, by omega, by omega⟩

theorem experienceEntryBlocks_eq_ok (llm : String → Except String String)
    (e : ExperienceEntry) (h : e.description ≠ none) :
    experienceEntryBlocks llm e = Except.ok (renderedExperienceEntry llm e) := by
  cases hd : e.description with
  | none => exact absurd hd h
  | some d =>
      simp [experienceEntryBlocks, renderedExperienceEntry, descriptionText, hd]

theorem mapM_experienceEntryBlocks (llm : String → Except String String) :
    ∀ l : List ExperienceEntry, (∀ e ∈ l, e.description ≠ none) →
      mapMExcept (experienceEntryBlocks llm) l =
        Except.ok (l.map (renderedExperienceEntry llm))
  | [], _ => rfl
  | e :: es, h => by
      have hh := experienceEntryBlocks_eq_ok llm e (h e (by simp))
      have ih := mapM_experienceEntryBlocks llm es (fun x hx => h x (by simp [hx]))
      simp [mapMExcept, hh, ih, Bind.bind, Except.bind]

theorem mapM_experienceEntryBlocks_ok (llm : String → Except String String) :
    ∀ (l : List ExperienceEntry) (segs : List (List Block)),
      mapMExcept (experienceEntryBlocks llm) l = Except.ok segs →
      ∀ e ∈ l, e.description ≠ none
  | [], _, _, e, he => absurd he (List.not_mem_nil e)
  | e :: es, segs, hm, x, hx => by
      cases hd : e.description with
      | none =>
          simp [mapMExcept, experienceEntryBlocks, hd, Bind.bind, Except.bind] at hm
      | some d =>
          rcases List.mem_cons.mp hx with rfl | hxs
          · simp [hd]
          · have hh := experienceEntryBlocks_eq_ok llm e (by simp [hd])
            rw [mapMExcept, hh] at hm
            simp only [Bind.bind, Except.bind] at hm
            cases hms : mapMExcept (experienceEntryBlocks llm) es with
            | error msg => rw [hms] at hm; simp at hm
            | ok rest => exact mapM_experienceEntryBlocks_ok llm es rest hms x hxs

theorem generate_resume_eq (llm : String → Except String String)
    (name email phone linkedin github skills : String)
    (experience : List ExperienceEntry) (education : List EducationEntry)
    (projects : List ProjectEntry) (h : ∀ e ∈ experience, e.description ≠ none) :
    generate_resume llm name email phone linkedin github skills experience education projects =
      Except.ok (resumeBlocks llm name email phone linkedin github skills experience education projects) := by
  have hm := mapM_experienceEntryBlocks llm experience h
  rw [generate_resume, hm]
  simp [Bind.bind, Except.bind, resumeBlocks]

theorem generate_resume_ok_inv (llm : String → Except String String)
    (name email phone linkedin github skills : String)
    (experience : List ExperienceEntry) (education : List EducationEntry)
    (projects : List ProjectEntry) (doc : List Block)
    (hdoc : generate_resume llm name email phone linkedin github skills experience education projects = Except.ok doc) :
    (∀ e ∈ experience, e.description ≠ none) ∧
      doc = resumeBlocks llm name email phone linkedin github skills experience education projects := by
  cases hm : mapMExcept (experienceEntryBlocks llm) experience with
  | error msg =>
      rw [generate_resume, hm] at hdoc
      simp [Bind.bind, Except.bind] at hdoc
  | ok segs =>
      have hpres := mapM_experienceEntryBlocks_ok llm experience segs hm
      have := generate_resume_eq llm name email phone linkedin github skills experience education projects hpres
      rw [this] at hdoc
      exact ⟨hpres, (Except.ok.inj hdoc).symm⟩

end SmartResume

/-! ## Claim theorems -/

namespace SmartResume

/-- C5: decoding the base64 text emitted for a serialized Document byte
buffer yields a buffer byte-identical to the one produced by serialization
(serialize, then encode, then decode, gives back byte-equal content). -/
theorem b64_export_roundtrip (buffer : List Nat) (h : ∀ x ∈ buffer, x < 256) :
    b64decode (b64encode buffer) = some buffer := by
  simpa [b64encode, b64decode] using b64_roundtrip_aux buffer h

/-- C5 witness: round trip on a concrete buffer starting with the zip
magic bytes of a docx archive. -/
theorem b64_export_roundtrip_witness :
    (∀ x ∈ [80, 75, 3, 4, 255, 0, 129], x < 256) ∧
      b64decode (b64encode [80, 75, 3, 4, 255, 0, 129]) = some [80, 75, 3, 4, 255, 0, 129] :=
  ⟨by decide, b64_export_roundtrip [80, 75, 3, 4, 255, 0, 129] (by decide)⟩

/-- C9: the download filename is exactly the user-supplied name followed by
`_resume.docx`, with no sanitization: the name (unsafe characters included)
is interpolated verbatim into the filename and into the surrounding HTML
anchor attribute text. -/
theorem download_filename_unsanitized (name b64 : String) :
    downloadFilename name = name ++ "_resume.docx" ∧
    downloadLink name b64 =
      "<a href=\"data:application/vnd.openxmlformats-officedocument.wordprocessingml.document;base64," ++
        b64 ++ "\" download=\"" ++ name ++ "_resume.docx" ++ "\">Download Resume (docx)</a>" ∧
    downloadFilename "<script>\"& x" = "<script>\"& x_resume.docx" := by
  refine ⟨rfl, ?_, rfl⟩
  simp [downloadLink, downloadFilename, String.append_assoc]

/-- C8 counterexample: with `GOOGLE_API_KEY` present in the process
environment but bound to the empty string, startup halts instead of
proceeding, refuting the claim that presence of the variable suffices. -/
theorem startup_empty_key_cex :
    startup (fun v => if v = "GOOGLE_API_KEY" then some "" else none) =
      StartupResult.halted "Please set the GOOGLE_API_KEY environment variable." := by
  simp [startup]

/-- C8 amended: if the API-key variable is unset — or set to the empty
string, which the falsy check treats the same as unset — the program halts
at startup before serving any submission; if it is set to a non-empty
value, startup proceeds with that key. -/
theorem startup_credential_gate (env : String → Option String) :
    (env "GOOGLE_API_KEY" = none →
      startup env = StartupResult.halted "Please set the GOOGLE_API_KEY environment variable.") ∧
    (env "GOOGLE_API_KEY" = some "" →
      startup env = StartupResult.halted "Please set the GOOGLE_API_KEY environment variable.") ∧
    (∀ key, key ≠ "" → env "GOOGLE_API_KEY" = some key →
      startup env = StartupResult.started key) := by
  refine ⟨fun h => by simp [startup, h], fun h => by simp [startup, h],
    fun key hk h => by simp [startup, h, hk]⟩

/-- C8 witness: an environment without the key halts; an environment with a
non-empty key starts. -/
theorem startup_credential_gate_witness :
    startup (fun _ => none) =
      StartupResult.halted "Please set the GOOGLE_API_KEY environment variable." ∧
    startup (fun _ => some "sk-123") = StartupResult.started "sk-123" :=
  ⟨(startup_credential_gate (fun _ => none)).1 rfl,
   (startup_credential_gate (fun _ => some "sk-123")).2.2 "sk-123" (by decide) rfl⟩

/-- C3: when the underlying text-generation call raises, every enrichment
client function returns normally with its human-readable error string in
place of the content; when the call succeeds, the response text is returned
verbatim — so the return type is a plain `String` in both cases and callers
cannot distinguish the outcomes by type. -/
theorem enrichment_error_string_contract
    (llmFail llmOk : String → Except String String) (e t : String)
    (description name job_description skills user_skills extracted_skills
      linkedin_data resume_content : String)
    (hfail : ∀ p, llmFail p = Except.error e)
    (hok : ∀ p, llmOk p = Except.ok t) :
    summarize_experience llmFail description = "Error summarizing experience: " ++ e ∧
    generate_skills_suggestions llmFail description = "Error generating skills: " ++ e ∧
    generate_cover_letter llmFail name job_description = "Error generating cover letter: " ++ e ∧
    suggest_improvements llmFail job_description skills = "Error generating suggestions: " ++ e ∧
    extract_skills_qualifications llmFail job_description = "Error extracting skills and qualifications: " ++ e ∧
    highlight_missing_skills llmFail user_skills extracted_skills = "Error highlighting missing skills: " ++ e ∧
    suggest_profile_improvements llmFail linkedin_data = "Error suggesting profile improvements: " ++ e ∧
    generate_interview_questions llmFail resume_content = "Error generating interview questions: " ++ e ∧
    analyze_strengths_weaknesses llmFail resume_content = "Error analyzing strengths and weaknesses: " ++ e ∧
    summarize_experience llmOk description = t ∧
    generate_skills_suggestions llmOk description = t ∧
    generate_cover_letter llmOk name job_description = t ∧
    suggest_improvements llmOk job_description skills = t ∧
    extract_skills_qualifications llmOk job_description = t ∧
    highlight_missing_skills llmOk user_skills extracted_skills = t ∧
    suggest_profile_improvements llmOk linkedin_data = t ∧
    generate_interview_questions llmOk resume_content = t ∧
    analyze_strengths_weaknesses llmOk resume_content = t := by
  simp [summarize_experience, summarizePrompt, generate_skills_suggestions,
    generate_cover_letter, suggest_improvements, extract_skills_qualifications,
    highlight_missing_skills, suggest_profile_improvements,
    generate_interview_questions, analyze_strengths_weaknesses, hfail, hok]

/-- C3 witness: a client whose transport always raises `boom` yields the
error string; one that always answers `OK` yields `OK`. -/
theorem enrichment_error_string_contract_witness :
    summarize_experience (fun _ => Except.error "boom") "desc" =
      "Error summarizing experience: boom" ∧
    summarize_experience (fun _ => Except.ok "OK") "desc" = "OK" := by
  have h := enrichment_error_string_contract (fun _ => Except.error "boom")
    (fun _ => Except.ok "OK") "boom" "OK" "desc" "n" "jd" "sk" "us" "es" "ld" "rc"
    (fun _ => rfl) (fun _ => rfl)
  exact ⟨h.1, h.2.2.2.2.2.2.2.2.2.1⟩

end SmartResume

namespace SmartResume

/-- C6: when the experience, education and project lists are all empty, the
document is exactly the header heading, the contact paragraph and the
Skills section, followed by the three remaining section headings with zero
sub-blocks between or after them. -/
theorem empty_entry_lists_document (llm : String → Except String String)
    (name email phone linkedin github skills : String) :
    generate_resume llm name email phone linkedin github skills [] [] [] =
      Except.ok
        ([Block.heading name 1,
          Block.paragraph (header_info email phone linkedin github) none,
          Block.heading "Skills" 2] ++
         (pySplitComma skills).map (fun skill => Block.paragraph (pyStrip skill) (some "List Bullet")) ++
         [Block.heading "Experience" 2, Block.heading "Education" 2,
          Block.heading "Projects" 2]) := by
  rw [generate_resume_eq llm name email phone linkedin github skills [] [] [] (by simp)]
  simp [resumeBlocks]

/-- C1: the document's sections appear in the fixed order Header, Skills,
Experience, Education, Projects, whatever the input sizes; the only heading
blocks are the five section headings, and each repeated-entry section holds
exactly one sub-block group per supplied entry. -/
theorem resume_section_structure (llm : String → Except String String)
    (name email phone linkedin github skills : String)
    (experience : List ExperienceEntry) (education : List EducationEntry)
    (projects : List ProjectEntry) (h : ∀ e ∈ experience, e.description ≠ none) :
    ∃ skillsSeg expSegs eduSegs projSegs,
      generate_resume llm name email phone linkedin github skills experience education projects =
        Except.ok
          ([Block.heading name 1,
            Block.paragraph (header_info email phone linkedin github) none,
            Block.heading "Skills" 2] ++ skillsSeg ++
           [Block.heading "Experience" 2] ++ List.flatten expSegs ++
           [Block.heading "Education" 2] ++ List.flatten eduSegs ++
           [Block.heading "Projects" 2] ++ List.flatten projSegs) ∧
      List.length expSegs = experience.length ∧
      List.length eduSegs = education.length ∧
      List.length projSegs = projects.length ∧
      (∀ b ∈ skillsSeg, b.isHeading = false) ∧
      (∀ seg ∈ expSegs, ∀ b ∈ seg, b.isHeading = false) ∧
      (∀ seg ∈ eduSegs, ∀ b ∈ seg, b.isHeading = false) ∧
      (∀ seg ∈ projSegs, ∀ b ∈ seg, b.isHeading = false) := by
  refine ⟨(pySplitComma skills).map (fun skill => Block.paragraph (pyStrip skill) (some "List Bullet")),
    experience.map (renderedExperienceEntry llm),
    education.map educationEntryBlocks,
    projects.map projectEntryBlocks,
    ?_, by simp, by simp, by simp, ?_, ?_, ?_, ?_⟩
  · rw [generate_resume_eq llm name email phone linkedin github skills experience education projects h]
    simp [resumeBlocks]
  · intro b hb
    obtain ⟨sk, _, rfl⟩ := List.mem_map.mp hb
    rfl
  · intro seg hseg b hb
    obtain ⟨x, _, rfl⟩ := List.mem_map.mp hseg
    simp [renderedExperienceEntry] at hb
    rcases hb with rfl | rfl | rfl <;> rfl
  · intro seg hseg b hb
    obtain ⟨x, _, rfl⟩ := List.mem_map.mp hseg
    simp [educationEntryBlocks] at hb
    rcases hb with rfl | rfl | rfl <;> rfl
  · intro seg hseg b hb
    obtain ⟨x, _, rfl⟩ := List.mem_map.mp hseg
    simp [projectEntryBlocks] at hb
    rcases hb with rfl | rfl <;> rfl

/-- C1 witness: the structure at a concrete input with one entry of each
kind. -/
theorem resume_section_structure_witness :
    ∃ skillsSeg expSegs eduSegs projSegs,
      generate_resume (fun _ => Except.ok "OK") "N" "E" "P" "L" "G" "A, B"
          [⟨"T", "C", "D", some "X"⟩] [⟨"Deg", "Sch", "DD", "DS"⟩] [⟨"PT", "PD"⟩] =
        Except.ok
          ([Block.heading "N" 1,
            Block.paragraph (header_info "E" "P" "L" "G") none,
            Block.heading "Skills" 2] ++ skillsSeg ++
           [Block.heading "Experience" 2] ++ List.flatten expSegs ++
           [Block.heading "Education" 2] ++ List.flatten eduSegs ++
           [Block.heading "Projects" 2] ++ List.flatten projSegs) ∧
      List.length expSegs = List.length [(⟨"T", "C", "D", some "X"⟩ : ExperienceEntry)] ∧
      List.length eduSegs = List.length [(⟨"Deg", "Sch", "DD", "DS"⟩ : EducationEntry)] ∧
      List.length projSegs = List.length [(⟨"PT", "PD"⟩ : ProjectEntry)] ∧
      (∀ b ∈ skillsSeg, b.isHeading = false) ∧
      (∀ seg ∈ expSegs, ∀ b ∈ seg, b.isHeading = false) ∧
      (∀ seg ∈ eduSegs, ∀ b ∈ seg, b.isHeading = false) ∧
      (∀ seg ∈ projSegs, ∀ b ∈ seg, b.isHeading = false) :=
  resume_section_structure (fun _ => Except.ok "OK") "N" "E" "P" "L" "G" "A, B"
    [⟨"T", "C", "D", some "X"⟩] [⟨"Deg", "Sch", "DD", "DS"⟩] [⟨"PT", "PD"⟩] (by decide)

/-- C4: the Skills section is one `List Bullet` paragraph per comma-split
token of the skills string, each stripped of surrounding whitespace, in the
original order and with empty tokens kept; in particular `A, B,C` yields
the bullet texts `A`, `B`, `C` and `A,,B` keeps its empty middle token. -/
theorem skills_section_bullets (llm : String → Except String String)
    (name email phone linkedin github skills : String)
    (experience : List ExperienceEntry) (education : List EducationEntry)
    (projects : List ProjectEntry) (h : ∀ e ∈ experience, e.description ≠ none) :
    generate_resume llm name email phone linkedin github skills experience education projects =
      Except.ok
        ([Block.heading name 1,
          Block.paragraph (header_info email phone linkedin github) none,
          Block.heading "Skills" 2] ++
         (pySplitComma skills).map (fun skill => Block.paragraph (pyStrip skill) (some "List Bullet")) ++
         (Block.heading "Experience" 2 ::
          ((experience.map (renderedExperienceEntry llm)).flatten ++
           [Block.heading "Education" 2] ++ (education.map educationEntryBlocks).flatten ++
           [Block.heading "Projects" 2] ++ (projects.map projectEntryBlocks).flatten))) ∧
    (pySplitComma "A, B,C").map pyStrip = ["A", "B", "C"] ∧
    (pySplitComma "A,,B").map pyStrip = ["A", "", "B"] := by
  refine ⟨?_, by decide, by decide⟩
  rw [generate_resume_eq llm name email phone linkedin github skills experience education projects h]
  simp [resumeBlocks]

/-- C4 witness: the Skills bullets for `A, B,C` at a concrete input. -/
theorem skills_section_bullets_witness :
    generate_resume (fun _ => Except.ok "OK") "N" "E" "P" "L" "G" "A, B,C" [] [] [] =
      Except.ok
        ([Block.heading "N" 1,
          Block.paragraph (header_info "E" "P" "L" "G") none,
          Block.heading "Skills" 2] ++
         (pySplitComma "A, B,C").map (fun skill => Block.paragraph (pyStrip skill) (some "List Bullet")) ++
         (Block.heading "Experience" 2 ::
          ((([] : List ExperienceEntry).map (renderedExperienceEntry (fun _ => Except.ok "OK"))).flatten ++
           [Block.heading "Education" 2] ++ (([] : List EducationEntry).map educationEntryBlocks).flatten ++
           [Block.heading "Projects" 2] ++ (([] : List ProjectEntry).map projectEntryBlocks).flatten))) :=
  (skills_section_bullets (fun _ => Except.ok "OK") "N" "E" "P" "L" "G" "A, B,C"
    [] [] [] (by simp)).1

end SmartResume

namespace SmartResume

/-- C2: for every experience entry with a non-empty description, the
description paragraph of the generated document is exactly the enrichment
output — the response text verbatim on success, the error string verbatim
on failure — and in both cases the document is syntactically complete, all
five section headings present. -/
theorem enriched_description_verbatim (llm : String → Except String String)
    (name email phone linkedin github skills : String)
    (experience : List ExperienceEntry) (education : List EducationEntry)
    (projects : List ProjectEntry) (doc : List Block)
    (hdoc : generate_resume llm name email phone linkedin github skills experience education projects = Except.ok doc) :
    (Block.heading name 1 ∈ doc ∧ Block.heading "Skills" 2 ∈ doc ∧
     Block.heading "Experience" 2 ∈ doc ∧ Block.heading "Education" 2 ∈ doc ∧
     Block.heading "Projects" 2 ∈ doc) ∧
    (∀ exp ∈ experience, ∀ d, exp.description = some d → d ≠ "" →
      (∀ t, llm (summarizePrompt d) = Except.ok t → Block.paragraph t none ∈ doc) ∧
      (∀ e, llm (summarizePrompt d) = Except.error e →
        Block.paragraph ("Error summarizing experience: " ++ e) none ∈ doc)) := by
  obtain ⟨hpres, rfl⟩ := generate_resume_ok_inv llm name email phone linkedin github skills
    experience education projects doc hdoc
  constructor
  · refine ⟨?_, ?_, ?_, ?_, ?_⟩ <;> simp [resumeBlocks]
  · intro exp hexp d hd hne
    have hb : Block.paragraph (summarize_experience llm d) none ∈ renderedExperienceEntry llm exp := by
      simp [renderedExperienceEntry, descriptionText, hd, hne]
    have hflat : Block.paragraph (summarize_experience llm d) none ∈
        (experience.map (renderedExperienceEntry llm)).flatten :=
      List.mem_flatten.mpr ⟨renderedExperienceEntry llm exp, List.mem_map_of_mem _ hexp, hb⟩
    have hmem : Block.paragraph (summarize_experience llm d) none ∈
        resumeBlocks llm name email phone linkedin github skills experience education projects := by
      simp only [resumeBlocks, List.mem_append]
      tauto
    constructor
    · intro t ht
      have hs : summarize_experience llm d = t := by simp [summarize_experience, ht]
      rwa [hs] at hmem
    · intro e he
      have hs : summarize_experience llm d = "Error summarizing experience: " ++ e := by
        simp [summarize_experience, he]
      rwa [hs] at hmem

/-- C2 witness: with a stub client answering `OK` and skills `Python, SQL`,
the generated document contains the description paragraph `OK` and all five
section headings. -/
theorem enriched_description_verbatim_witness :
    Block.paragraph "OK" none ∈
      ([Block.heading "N" 1,
        Block.paragraph "E | P | [LinkedIn](L) | [GitHub](G)" none,
        Block.heading "Skills" 2,
        Block.paragraph "Python" (some "List Bullet"),
        Block.paragraph "SQL" (some "List Bullet"),
        Block.heading "Experience" 2,
        Block.paragraph "T" (some "Heading 3"),
        Block.paragraph "C | D" none,
        Block.paragraph "OK" none,
        Block.heading "Education" 2,
        Block.heading "Projects" 2] : List Block) ∧
    Block.heading "Education" 2 ∈
      ([Block.heading "N" 1,
        Block.paragraph "E | P | [LinkedIn](L) | [GitHub](G)" none,
        Block.heading "Skills" 2,
        Block.paragraph "Python" (some "List Bullet"),
        Block.paragraph "SQL" (some "List Bullet"),
        Block.heading "Experience" 2,
        Block.paragraph "T" (some "Heading 3"),
        Block.paragraph "C | D" none,
        Block.paragraph "OK" none,
        Block.heading "Education" 2,
        Block.heading "Projects" 2] : List Block) := by
  have h := enriched_description_verbatim (fun _ => Except.ok "OK") "N" "E" "P" "L" "G"
    "Python, SQL" [⟨"T", "C", "D", some "X"⟩] [] []
    [Block.heading "N" 1,
     Block.paragraph "E | P | [LinkedIn](L) | [GitHub](G)" none,
     Block.heading "Skills" 2,
     Block.paragraph "Python" (some "List Bullet"),
     Block.paragraph "SQL" (some "List Bullet"),
     Block.heading "Experience" 2,
     Block.paragraph "T" (some "Heading 3"),
     Block.paragraph "C | D" none,
     Block.paragraph "OK" none,
     Block.heading "Education" 2,
     Block.heading "Projects" 2] rfl
  exact ⟨(h.2 ⟨"T", "C", "D", some "X"⟩ (by simp) "X" rfl (by decide)).1 "OK" rfl, h.1.2.2.2.1⟩

/-- C7: a submission with an empty required field (name, email or skills)
is blocked with the user-facing validation message — no document is
generated, no download link is emitted, and the outcome does not depend on
the enrichment client or the serializer — while a submission whose required
fields are all non-empty is never blocked and, whenever resume generation
succeeds, yields the processed document with its download anchor. -/
theorem required_fields_gate (llm llm2 : String → Except String String)
    (save save2 : List Block → List Nat)
    (name email phone linkedin github skills : String)
    (experience : List ExperienceEntry) (education : List EducationEntry)
    (projects : List ProjectEntry) :
    ((name = "" ∨ email = "" ∨ skills = "") →
      handleSubmission llm save name email phone linkedin github skills experience education projects =
        Except.ok (SubmissionOutcome.blocked "Please fill in all required fields (Name, Email, Skills).") ∧
      handleSubmission llm save name email phone linkedin github skills experience education projects =
        handleSubmission llm2 save2 name email phone linkedin github skills experience education projects) ∧
    ((name ≠ "" ∧ email ≠ "" ∧ skills ≠ "") →
      (∀ m, handleSubmission llm save name email phone linkedin github skills experience education projects ≠
        Except.ok (SubmissionOutcome.blocked m)) ∧
      (∀ doc, generate_resume llm name email phone linkedin github skills experience education projects =
          Except.ok doc →
        handleSubmission llm save name email phone linkedin github skills experience education projects =
          Except.ok (SubmissionOutcome.processed doc (downloadLink name (b64encode (save doc)))))) := by
  constructor
  · intro hmiss
    have hcond : (name = "" || email = "" || skills = "") = true := by
      rcases hmiss with h | h | h <;> simp [h]
    constructor <;> simp [handleSubmission, hcond]
  · rintro ⟨h1, h2, h3⟩
    have hcond : (name = "" || email = "" || skills = "") = false := by simp [h1, h2, h3]
    constructor
    · intro m
      cases hg : generate_resume llm name email phone linkedin github skills experience education projects with
      | ok doc => simp [handleSubmission, hcond, hg]
      | error msg => simp [handleSubmission, hcond, hg]
    · intro doc hg
      simp [handleSubmission, hcond, hg]

/-- C7 witness: an empty name blocks the submission; fully supplied required
fields produce the processed outcome. -/
theorem required_fields_gate_witness :
    handleSubmission (fun _ => Except.ok "OK") (fun _ => []) "" "E" "P" "L" "G" "S" [] [] [] =
      Except.ok (SubmissionOutcome.blocked "Please fill in all required fields (Name, Email, Skills).") ∧
    ∀ m, handleSubmission (fun _ => Except.ok "OK") (fun _ => []) "N" "E" "P" "L" "G" "S" [] [] [] ≠
      Except.ok (SubmissionOutcome.blocked m) :=
  ⟨((required_fields_gate (fun _ => Except.ok "OK") (fun _ => Except.ok "OK")
      (fun _ => []) (fun _ => []) "" "E" "P" "L" "G" "S" [] [] []).1 (Or.inl rfl)).1,
   ((required_fields_gate (fun _ => Except.ok "OK") (fun _ => Except.ok "OK")
      (fun _ => []) (fun _ => []) "N" "E" "P" "L" "G" "S" [] [] []).2
      ⟨by decide, by decide, by decide⟩).1⟩

/-- C10 counterexample: an experience entry whose description key is absent
does not get its raw description rendered — the `else` branch at line 195
evaluates `exp['description']` and the generation fails with a `KeyError`,
so no document is produced at all. -/
theorem missing_description_cex :
    generate_resume (fun _ => Except.ok "OK") "N" "E" "P" "L" "G" "S"
        [⟨"T", "C", "D", none⟩] [] [] = Except.error "KeyError: description" := rfl

/-- C10 amended: the enrichment call is made exactly when the entry's
description key is present with a non-empty value; a present-but-empty
description is rendered raw with no enrichment call (the entry's blocks do
not depend on the client); an absent description key raises a `KeyError`
instead of rendering anything. -/
theorem description_enrichment_condition (llm llm2 : String → Except String String)
    (exp : ExperienceEntry) :
    (exp.description = some "" →
      experienceEntryBlocks llm exp =
        Except.ok [Block.paragraph exp.title (some "Heading 3"),
          Block.paragraph (exp.company ++ " | " ++ exp.dates) none,
          Block.paragraph "" none] ∧
      experienceEntryBlocks llm exp = experienceEntryBlocks llm2 exp) ∧
    (∀ d, exp.description = some d → d ≠ "" →
      experienceEntryBlocks llm exp =
        Except.ok [Block.paragraph exp.title (some "Heading 3"),
          Block.paragraph (exp.company ++ " | " ++ exp.dates) none,
          Block.paragraph (summarize_experience llm d) none]) ∧
    (exp.description = none →
      experienceEntryBlocks llm exp = Except.error "KeyError: description" ∧
      experienceEntryBlocks llm exp = experienceEntryBlocks llm2 exp) := by
  refine ⟨fun h => ?_, fun d hd hne => ?_, fun h => ?_⟩
  · constructor <;> simp [experienceEntryBlocks, h]
  · simp [experienceEntryBlocks, hd, hne]
  · constructor <;> simp [experienceEntryBlocks, h]

/-- C10 witness: the three description cases at concrete entries. -/
theorem description_enrichment_condition_witness :
    experienceEntryBlocks (fun _ => Except.ok "OK") ⟨"T", "C", "D", some ""⟩ =
      Except.ok [Block.paragraph "T" (some "Heading 3"),
        Block.paragraph ("C" ++ " | " ++ "D") none, Block.paragraph "" none] ∧
    experienceEntryBlocks (fun _ => Except.ok "OK") ⟨"T", "C", "D", some "X"⟩ =
      Except.ok [Block.paragraph "T" (some "Heading 3"),
        Block.paragraph ("C" ++ " | " ++ "D") none,
        Block.paragraph (summarize_experience (fun _ => Except.ok "OK") "X") none] ∧
    experienceEntryBlocks (fun _ => Except.ok "OK") ⟨"T", "C", "D", none⟩ =
      Except.error "KeyError: description" :=
  ⟨((description_enrichment_condition (fun _ => Except.ok "OK") (fun _ => Except.error "boom")
      ⟨"T", "C", "D", some ""⟩).1 rfl).1,
   (description_enrichment_condition (fun _ => Except.ok "OK") (fun _ => Except.error "boom")
      ⟨"T", "C", "D", some "X"⟩).2.1 "X" rfl (by decide),
   ((description_enrichment_condition (fun _ => Except.ok "OK") (fun _ => Except.error "boom")
      ⟨"T", "C", "D", none⟩).2.2 rfl).1⟩

end SmartResume
